import Mathlib

/-
  Verification development for the hybrid-coach repository.

  The repository's estimation engine lives in `server.js` (three successive
  snapshots of the file are present in the source tree) and `coaching.js`.
  JavaScript numbers are modelled over ℚ; `Math.round` is round-half-up
  (towards +∞), `Math.floor` is the integer floor.  Paces and heart rates
  are integers after the code's explicit `Math.round` calls, so they are
  modelled as ℤ.  Pace strings of the shape "m:ss" (as produced by
  `fmt` / `formatSecondsToMinKm` and parsed back with `split(':')`)
  are modelled as pairs of integers.
-/

namespace HybridCoach

/-- JavaScript `Math.round`: round half towards positive infinity. -/
def jsRound (x : ℚ) : ℤ := ⌊x + 1/2⌋

/-- A pace string "m:ss", as stored in the athlete profile: minutes and
seconds components. -/
structure PaceStr where
  mins : ℤ
  secs : ℤ
deriving DecidableEq, Repr

/-- `fmt` from `server.js`:
`m = Math.floor(s / 60); sec = Math.round(s % 60)`.
JS `%` truncates towards zero (`Int.tmod`); `Math.round` of an integer is
the identity. -/
def fmt (s : ℤ) : PaceStr := ⟨⌊(s : ℚ) / 60⌋, Int.tmod s 60⟩

/-- `formatSecondsToMinKm` from `server.js` (same body as `fmt`). -/
def formatSecondsToMinKm (totalSeconds : ℤ) : PaceStr :=
  ⟨⌊(totalSeconds : ℚ) / 60⌋, Int.tmod totalSeconds 60⟩

/-- Parsing a "m:ss" pace string back to seconds, as done by
`parseInt(parts[0]) * 60 + parseInt(parts[1])`. -/
def parsePaceStr (p : PaceStr) : ℤ := p.mins * 60 + p.secs

/-- A raw Strava activity as consumed by `calculateZonesFromStrava`.
Optional numeric fields are absent (`none`) or present; JS truthiness
treats an absent field and a zero value alike. -/
structure RawActivity where
  type : String
  average_heartrate : Option ℚ
  average_speed : ℚ
  moving_time : ℚ
  suffer_score : Option ℚ
  max_heartrate : Option ℚ
deriving DecidableEq, Repr

/-- JS `x || d` for an optional numeric value: the stored value unless it
is absent or `0` (falsy), in which case the default. -/
def jsOrQ (x : Option ℚ) (d : ℚ) : ℚ :=
  match x with
  | none => d
  | some v => if v = 0 then d else v

/-- JS `x || d` on an optional integer. -/
def jsOrInt (x : Option ℤ) (d : ℤ) : ℤ :=
  match x with
  | none => d
  | some v => if v = 0 then d else v

/-- JS truthiness filter on an `Option ℤ` result: `some 0` is falsy. -/
def jsTruthyInt (o : Option ℤ) : Option ℤ :=
  match o with
  | none => none
  | some v => if v = 0 then none else some v

/-- One pace/heart-rate data point (`paceSecPerKm`, `hr`), both integers
after `Math.round`.  The slope-based snapshot also computes an unused
`durationMin` field, which is never read and is therefore omitted. -/
structure DataPoint where
  paceSecPerKm : ℤ
  hr : ℤ
deriving DecidableEq, Repr

/-- Stable insertion into a list sorted (ascending) by `key`; an element is
inserted after all earlier elements with a strictly smaller key and before
elements with an equal or larger key, which matches the stability of
JS `Array.prototype.sort` with comparator `(a, b) => key(a) - key(b)`. -/
def insertOn (key : DataPoint → ℤ) (x : DataPoint) : List DataPoint → List DataPoint
  | [] => [x]
  | y :: ys => if key y < key x then y :: insertOn key x ys else x :: y :: ys

/-- Stable sort by an integer key (ascending), modelling
`Array.prototype.sort` with a numeric comparator. -/
def sortOn (key : DataPoint → ℤ) : List DataPoint → List DataPoint
  | [] => []
  | x :: xs => insertOn key x (sortOn key xs)

/-- Outlier trim from `calculateZonesFromStrava`:
`trimCount = Math.max(1, Math.floor(length * 0.10))` followed by
`slice(trimCount, length - trimCount)`.  For natural list lengths
`Math.floor(length * 0.10) = length / 10` (natural division). -/
def trimOutliers (l : List DataPoint) : List DataPoint :=
  let trimCount := max 1 (l.length / 10)
  (l.take (l.length - trimCount)).drop trimCount

/-- The `below` accumulator of the scan loop in `interpolatePaceAtHR`:
`if (p.hr <= targetHR && (!below || p.hr > below.hr)) below = p`. -/
def scanBelowAux (t : ℤ) : Option DataPoint → List DataPoint → Option DataPoint
  | acc, [] => acc
  | acc, p :: rest =>
    scanBelowAux t
      (if p.hr ≤ t then
        match acc with
        | none => some p
        | some b => if b.hr < p.hr then some p else some b
      else acc) rest

/-- The `above` accumulator of the scan loop in `interpolatePaceAtHR`:
`if (p.hr >= targetHR && (!above || p.hr < above.hr)) above = p`.
The JS loop updates both accumulators in one pass; the two updates are
independent, so two passes compute the same pair. -/
def scanAboveAux (t : ℤ) : Option DataPoint → List DataPoint → Option DataPoint
  | acc, [] => acc
  | acc, p :: rest =>
    scanAboveAux t
      (if t ≤ p.hr then
        match acc with
        | none => some p
        | some a => if p.hr < a.hr then some p else some a
      else acc) rest

def scanBelow (t : ℤ) (l : List DataPoint) : Option DataPoint := scanBelowAux t none l

def scanAbove (t : ℤ) (l : List DataPoint) : Option DataPoint := scanAboveAux t none l

/-- `interpolatePaceAtHR(dataPoints, targetHR)` from `server.js` (identical
in both snapshots that define it).  The JS guard `below !== above` is
reference equality; both scans can only settle on the same reference when
each settles on the first sample whose heart rate equals the target, so
structural equality of the picked samples coincides with it. -/
def interpolatePaceAtHR (dataPoints : List DataPoint) (targetHR : ℤ) : Option ℤ :=
  match scanBelow targetHR dataPoints, scanAbove targetHR dataPoints with
  | some below, some above =>
    if below = above then some below.paceSecPerKm
    else
      some (jsRound ((below.paceSecPerKm : ℚ) +
        ((targetHR : ℚ) - below.hr) / ((above.hr : ℚ) - below.hr) *
          ((above.paceSecPerKm : ℚ) - below.paceSecPerKm)))
  | some below, none => some below.paceSecPerKm
  | none, some above => some above.paceSecPerKm
  | none, none => none

/-- The zone bounds computed from critical pace `cs` in the return block of
`calculateZonesFromStrava` (both snapshots): each bound is
`Math.round(cs * multiplier)` with multipliers 1.35, 1.20, 1.08, 0.97. -/
structure ZoneBoundsNum where
  z1 : ℤ
  z2lo : ℤ
  z2hi : ℤ
  z3lo : ℤ
  z3hi : ℤ
  z4lo : ℤ
  z4hi : ℤ
  z5 : ℤ
deriving DecidableEq, Repr

def zoneBoundsNum (cs : ℤ) : ZoneBoundsNum :=
  { z1 := jsRound ((cs : ℚ) * (135/100))
    z2lo := jsRound ((cs : ℚ) * (12/10))
    z2hi := jsRound ((cs : ℚ) * (135/100))
    z3lo := jsRound ((cs : ℚ) * (108/100))
    z3hi := jsRound ((cs : ℚ) * (12/10))
    z4lo := jsRound ((cs : ℚ) * (97/100))
    z4hi := jsRound ((cs : ℚ) * (108/100))
    z5 := jsRound ((cs : ℚ) * (97/100)) }

/-- Quality filter of the HRmax-anchored snapshot (`server.js` third
snapshot, lines 1489-1492): run-like type, truthy heart rate, positive
speed, more than 900 s of moving time. -/
def qualityRunHrmax (a : RawActivity) : Bool :=
  decide ((a.type = "Run" ∨ a.type = "TrailRun") ∧
    a.average_heartrate.getD 0 ≠ 0 ∧ 0 < a.average_speed ∧ 900 < a.moving_time)

/-- Quality filter of the slope-based snapshot (`server.js` first snapshot,
lines 285-290): as above plus the race exclusion
`!a.suffer_score || a.suffer_score < 250`. -/
def qualityRunSlope (a : RawActivity) : Bool :=
  decide ((a.type = "Run" ∨ a.type = "TrailRun") ∧
    a.average_heartrate.getD 0 ≠ 0 ∧ 0 < a.average_speed ∧ 900 < a.moving_time ∧
    (a.suffer_score.getD 0 = 0 ∨ a.suffer_score.getD 0 < 250))

/-- `dataPoints` construction shared by both snapshots:
`paceSecPerKm = Math.round(1000 / average_speed)`,
`hr = Math.round(average_heartrate)`. -/
def mkDataPoints (runs : List RawActivity) : List DataPoint :=
  runs.map fun r =>
    { paceSecPerKm := jsRound (1000 / r.average_speed)
      hr := jsRound (r.average_heartrate.getD 0) }

/-- `Math.max.apply(null, list)` over a nonempty ℚ list (the empty case is
unreachable at every call site: the run count is at least 5 there). -/
def qListMax : List ℚ → ℚ
  | [] => 0
  | h :: t => t.foldl max h

/-- `Math.min.apply(null, list)` over a nonempty ℤ list. -/
def intListMin : List ℤ → ℤ
  | [] => 0
  | h :: t => t.foldl min h

/-- `Math.max.apply(null, list)` over a nonempty ℤ list. -/
def intListMax : List ℤ → ℤ
  | [] => 0
  | h :: t => t.foldl max h

/-- Result record of the HRmax-anchored `calculateZonesFromStrava`
(`server.js` third snapshot, lines 1551-1566).  The display-only
`maxHrSource` string is omitted: it is never stored or branched on. -/
structure ZonesResultHrmax where
  runsAnalyzed : ℕ
  maxHrSeen : ℚ
  maxHrUsed : ℚ
  lt1 : PaceStr
  lt2 : PaceStr
  lt1Hr : ℤ
  lt2Hr : ℤ
  criticalSpeed : PaceStr
  z1 : PaceStr
  z2 : PaceStr × PaceStr
  z3 : PaceStr × PaceStr
  z4 : PaceStr × PaceStr
  z5 : PaceStr
deriving DecidableEq, Repr

/-- Athlete profile fields read and written by the estimation engine
(the storage row also carries name/token/transport fields, which no
engine code path touches).  `lt1_hr`/`lt2_hr` are stored as strings of
integers and modelled as the integers themselves. -/
structure Athlete where
  age : Option ℚ
  max_hr_calculated : Option ℚ
  max_hr_actual : Option ℚ
  critical_speed : Option PaceStr
  zone1_pace : Option PaceStr
  zone2_pace : Option (PaceStr × PaceStr)
  zone3_pace : Option (PaceStr × PaceStr)
  zone4_pace : Option (PaceStr × PaceStr)
  zone5_pace : Option PaceStr
  lt1_pace : Option PaceStr
  lt2_pace : Option PaceStr
  lt1_hr : Option ℤ
  lt2_hr : Option ℤ
  rpe_count : Option ℤ
  awaiting_input : Option String
deriving DecidableEq, Repr

/-- The HRmax-anchored `calculateZonesFromStrava(athlete)` (`server.js`
third snapshot, lines 1480-1567), from the point where the fetched
activity list is in hand.  The final `if (lt2PaceSec >= lt1PaceSec)`
swap exchanges both the pace pair and the heart-rate pair. -/
def calculateZonesFromStravaHrmax (athlete : Athlete) (activities : List RawActivity) :
    Option ZonesResultHrmax :=
  let runs := activities.filter qualityRunHrmax
  if runs.length < 5 then none
  else
    let maxHrSeen := qListMax (runs.map fun r => jsOrQ r.max_heartrate (r.average_heartrate.getD 0))
    let tanakaMax := jsOrQ athlete.max_hr_calculated
      ((jsRound (208 - (7/10) * jsOrQ athlete.age 35) : ℤ) : ℚ)
    let maxHrUsed := max tanakaMax maxHrSeen
    let lt1Hr := jsRound (maxHrUsed * (78/100))
    let lt2Hr := jsRound (maxHrUsed * (89/100))
    let trimmed := trimOutliers (sortOn (fun p => p.hr) (mkDataPoints runs))
    if trimmed.length < 4 then none
    else
      match jsTruthyInt (interpolatePaceAtHR trimmed lt1Hr),
            jsTruthyInt (interpolatePaceAtHR trimmed lt2Hr) with
      | some lt1PaceSec, some lt2PaceSec =>
        if lt1PaceSec ≤ lt2PaceSec then
          -- inverted: swap paces and heart rates
          some { runsAnalyzed := runs.length, maxHrSeen := maxHrSeen, maxHrUsed := maxHrUsed
                 lt1 := fmt lt2PaceSec, lt2 := fmt lt1PaceSec, lt1Hr := lt2Hr, lt2Hr := lt1Hr
                 criticalSpeed := fmt lt1PaceSec
                 z1 := fmt (zoneBoundsNum lt1PaceSec).z1
                 z2 := (fmt (zoneBoundsNum lt1PaceSec).z2lo, fmt (zoneBoundsNum lt1PaceSec).z2hi)
                 z3 := (fmt (zoneBoundsNum lt1PaceSec).z3lo, fmt (zoneBoundsNum lt1PaceSec).z3hi)
                 z4 := (fmt (zoneBoundsNum lt1PaceSec).z4lo, fmt (zoneBoundsNum lt1PaceSec).z4hi)
                 z5 := fmt (zoneBoundsNum lt1PaceSec).z5 }
        else
          some { runsAnalyzed := runs.length, maxHrSeen := maxHrSeen, maxHrUsed := maxHrUsed
                 lt1 := fmt lt1PaceSec, lt2 := fmt lt2PaceSec, lt1Hr := lt1Hr, lt2Hr := lt2Hr
                 criticalSpeed := fmt lt2PaceSec
                 z1 := fmt (zoneBoundsNum lt2PaceSec).z1
                 z2 := (fmt (zoneBoundsNum lt2PaceSec).z2lo, fmt (zoneBoundsNum lt2PaceSec).z2hi)
                 z3 := (fmt (zoneBoundsNum lt2PaceSec).z3lo, fmt (zoneBoundsNum lt2PaceSec).z3hi)
                 z4 := (fmt (zoneBoundsNum lt2PaceSec).z4lo, fmt (zoneBoundsNum lt2PaceSec).z4hi)
                 z5 := fmt (zoneBoundsNum lt2PaceSec).z5 }
      | _, _ => none

/-- One slope sample of the slope-based snapshot: pace/heart rate of the
faster point of a consecutive pair and `hrDiff / paceDiff`.  The stored
`index` field is never read and is omitted. -/
structure SlopePt where
  pace : ℤ
  hr : ℤ
  slope : ℚ
deriving DecidableEq, Repr

/-- The slope construction (first snapshot, lines 316-328): for each
consecutive pair with `paceDiff = prev.pace - curr.pace > 0`, record the
current point with slope `hrDiff / paceDiff`. -/
def mkSlopes : List DataPoint → List SlopePt
  | p :: q :: rest =>
    (if 0 < p.paceSecPerKm - q.paceSecPerKm then
      [{ pace := q.paceSecPerKm, hr := q.hr
         slope := ((q.hr : ℚ) - p.hr) / ((p.paceSecPerKm : ℚ) - q.paceSecPerKm) }]
    else []) ++ mkSlopes (q :: rest)
  | _ => []

/-- The 3-point moving average (first snapshot, lines 333-340): entry `j`
keeps the pace/heart rate of slope point `j` and averages slopes
`j-1`, `j`, `j+1`. -/
def smooth3 : List SlopePt → List SlopePt
  | a :: b :: c :: rest =>
    { pace := b.pace, hr := b.hr, slope := (a.slope + b.slope + c.slope) / 3 } ::
      smooth3 (b :: c :: rest)
  | _ => []

/-- Result record of the slope-based `calculateZonesFromStrava`
(first snapshot, lines 397-409). -/
structure ZonesResultSlope where
  runsAnalyzed : ℕ
  lt1 : PaceStr
  lt2 : PaceStr
  lt1Hr : ℤ
  lt2Hr : ℤ
  criticalSpeed : PaceStr
  z1 : PaceStr
  z2 : PaceStr × PaceStr
  z3 : PaceStr × PaceStr
  z4 : PaceStr × PaceStr
  z5 : PaceStr
deriving DecidableEq, Repr

/-- The slope-based `calculateZonesFromStrava` (`server.js` first
snapshot, lines 275-409), from the fetched activity list.  After the
outlier trim it requires at least 5 remaining points and at least 3
valid slope samples; thresholds found by the slope search are replaced
by the percentile fallback when falsy, and the function returns the
estimate without any inversion check or swap. -/
def calculateZonesFromStravaSlope (activities : List RawActivity) : Option ZonesResultSlope :=
  let runs := activities.filter qualityRunSlope
  if runs.length < 5 then none
  else
    let trimmed := trimOutliers (sortOn (fun p => p.hr) (mkDataPoints runs))
    if trimmed.length < 5 then none
    else
      let dataPoints := sortOn (fun p => -p.paceSecPerKm) trimmed
      let slopes := mkSlopes dataPoints
      if slopes.length < 3 then none
      else
        let smoothed := smooth3 slopes
        let avgSlope := (smoothed.foldl (fun s p => s + p.slope) 0) / (smoothed.length : ℚ)
        let cutoff := smoothed.length * 6 / 10
        -- LT1: first point with smoothed slope > 1.3 * avg, indices 1 .. cutoff-1
        let lt1Slope := ((smoothed.drop 1).take (cutoff - 1)).find?
          fun p => decide (avgSlope * (13/10) < p.slope)
        -- LT2: first point with smoothed slope > 1.8 * avg, indices cutoff ..
        let lt2Slope := (smoothed.drop cutoff).find?
          fun p => decide (avgSlope * (18/10) < p.slope)
        let minHR := intListMin (dataPoints.map fun d => d.hr)
        let maxHR := intListMax (dataPoints.map fun d => d.hr)
        let hrRange := maxHR - minHR
        let lt1HrFb := jsRound ((minHR : ℚ) + (hrRange : ℚ) * (62/100))
        let lt2HrFb := jsRound ((minHR : ℚ) + (hrRange : ℚ) * (84/100))
        -- `if (!lt1Point) { lt1Point = interpolate...; lt1Hr = fallback }`
        let lt1Final : Option ℤ × ℤ :=
          match lt1Slope with
          | some pt =>
            if pt.pace = 0 then (interpolatePaceAtHR dataPoints lt1HrFb, lt1HrFb)
            else (some pt.pace, pt.hr)
          | none => (interpolatePaceAtHR dataPoints lt1HrFb, lt1HrFb)
        let lt2Final : Option ℤ × ℤ :=
          match lt2Slope with
          | some pt =>
            if pt.pace = 0 then (interpolatePaceAtHR dataPoints lt2HrFb, lt2HrFb)
            else (some pt.pace, pt.hr)
          | none => (interpolatePaceAtHR dataPoints lt2HrFb, lt2HrFb)
        -- `if (!lt1Point || !lt2Point) return null` and `cs = lt2Point`
        match jsTruthyInt lt1Final.1, jsTruthyInt lt2Final.1 with
        | some lt1Point, some lt2Point =>
          some { runsAnalyzed := runs.length
                 lt1 := fmt lt1Point, lt2 := fmt lt2Point
                 lt1Hr := lt1Final.2, lt2Hr := lt2Final.2
                 criticalSpeed := fmt lt2Point
                 z1 := fmt (zoneBoundsNum lt2Point).z1
                 z2 := (fmt (zoneBoundsNum lt2Point).z2lo, fmt (zoneBoundsNum lt2Point).z2hi)
                 z3 := (fmt (zoneBoundsNum lt2Point).z3lo, fmt (zoneBoundsNum lt2Point).z3hi)
                 z4 := (fmt (zoneBoundsNum lt2Point).z4lo, fmt (zoneBoundsNum lt2Point).z4hi)
                 z5 := fmt (zoneBoundsNum lt2Point).z5 }
        | _, _ => none

/-- A stored activity row, as read back by `db.getActivityByStravaId`;
only `avg_pace` is consulted by the recalibration logic. -/
structure Activity where
  avg_pace : Option PaceStr
deriving DecidableEq, Repr

/-- The direction tag returned by `adjustZonesFromRPE`. -/
inductive Adjustment where
  | faster
  | slower
deriving DecidableEq, Repr

/-- The threshold-session test of `adjustZonesFromRPE` (line 1232):
`Math.abs(activityPaceSec - lt2Sec) / lt2Sec < 0.10`.  When `lt2Sec = 0`
the JS quotient is `NaN` or `Infinity` and the comparison is false, hence
the first conjunct. -/
def isThresholdSession (activityPaceSec lt2Sec : ℤ) : Prop :=
  lt2Sec ≠ 0 ∧ |(activityPaceSec : ℚ) - lt2Sec| / lt2Sec < 1/10

instance (a L : ℤ) : Decidable (isThresholdSession a L) := by
  unfold isThresholdSession
  exact inferInstance

/-- `adjustZonesFromRPE(athlete, rpe, activityId)` (`server.js` third
snapshot, lines 1217-1255).  The activity lookup is modelled by passing
the looked-up row directly.  On a nudge only `lt2_pace` and
`critical_speed` are written; the function returns the adjustment tag
(`null` when nothing was changed), paired here with the resulting
profile state. -/
def adjustZonesFromRPE (athlete : Athlete) (rpe : ℤ) (activity : Option Activity) :
    Option Adjustment × Athlete :=
  match activity, athlete.lt2_pace with
  | none, _ => (none, athlete)
  | some _, none => (none, athlete)
  | some act, some lt2p =>
    let lt2Sec := parsePaceStr lt2p
    match act.avg_pace with
    | none => (none, athlete)
    | some ap =>
      if isThresholdSession (parsePaceStr ap) lt2Sec then
        if rpe ≤ 5 then
          (some .faster,
            { athlete with
              lt2_pace := some (formatSecondsToMinKm (lt2Sec - 5))
              critical_speed := some (formatSecondsToMinKm (lt2Sec - 5)) })
        else if 9 ≤ rpe then
          (some .slower,
            { athlete with
              lt2_pace := some (formatSecondsToMinKm (lt2Sec + 5))
              critical_speed := some (formatSecondsToMinKm (lt2Sec + 5)) })
        else (none, athlete)
      else (none, athlete)

/-- `runZoneCalculation(chatId, athlete)` (`server.js` third snapshot,
lines 1173-1212) as a transition on the stored profile: on a `null`
zones result (and on the error path) nothing is written; otherwise the
threshold, zone, and max-HR fields are overwritten and `awaiting_input`
cleared.  `rpe_count` is not among the written fields. -/
def runZoneCalculation (athlete : Athlete) (activities : List RawActivity) : Athlete :=
  match calculateZonesFromStravaHrmax athlete activities with
  | none => athlete
  | some zones =>
    { athlete with
      critical_speed := some zones.criticalSpeed
      zone1_pace := some zones.z1
      zone2_pace := some zones.z2
      zone3_pace := some zones.z3
      zone4_pace := some zones.z4
      zone5_pace := some zones.z5
      lt1_pace := some zones.lt1
      lt2_pace := some zones.lt2
      lt1_hr := some zones.lt1Hr
      lt2_hr := some zones.lt2Hr
      max_hr_actual := some zones.maxHrSeen
      awaiting_input := none }

/-- The `rpe_` branch of `handleCallback` (`server.js` third snapshot,
lines 1141-1167) as a transition on the stored profile.  `db.saveRPE`
writes the rating onto the activity row, not the profile.  The rating
count is computed from the profile as read before the nudge
(`(athlete.rpe_count || 0) + 1`), stored unconditionally, and every
count that is a positive multiple of 3 triggers a full re-detection
over the athlete's Strava history. -/
def handleRpeCallback (athlete : Athlete) (activity : Option Activity) (rpe : ℤ)
    (activities : List RawActivity) : Athlete :=
  let nudged := (adjustZonesFromRPE athlete rpe activity).2
  let rpeCount := jsOrInt athlete.rpe_count 0 + 1
  let counted := { nudged with rpe_count := some rpeCount }
  if 3 ≤ rpeCount ∧ rpeCount % 3 = 0 then runZoneCalculation counted activities
  else counted

/-- The five zone labels of `classifyZone` (`coaching.js` lines 279-289),
plus the `Unknown` result for falsy input. -/
inductive ZoneLabel where
  | unknown
  | z1Recovery
  | z2AerobicBase
  | z3Tempo
  | z4Threshold
  | z5VO2max
deriving DecidableEq, Repr

/-- `classifyZone(paceSecPerKm, csString)` from `coaching.js`: the pace is
falsy when absent or zero; the critical-speed string is parsed as "m:ss"
and the ratio `pace / csSeconds` is compared against the fixed cutoffs
1.35, 1.20, 1.08, 0.97 from slowest to fastest. -/
def classifyZone (paceSecPerKm : Option ℤ) (csString : Option PaceStr) : ZoneLabel :=
  match paceSecPerKm, csString with
  | some pace, some cs =>
    if pace = 0 then .unknown
    else
      let csSeconds := parsePaceStr cs
      let rt : ℚ := (pace : ℚ) / csSeconds
      if 135/100 ≤ rt then .z1Recovery
      else if 12/10 ≤ rt then .z2AerobicBase
      else if 108/100 ≤ rt then .z3Tempo
      else if 97/100 ≤ rt then .z4Threshold
      else .z5VO2max
  | _, _ => .unknown

/-- A run activity with the given pace (seconds per km) and average heart
rate: speed is `1000 / pace` m/s, duration 1200 s, no suffer score and no
max heart rate — the shape used by the spec's scenario histories. -/
def mkRun (paceSec hr : ℚ) : RawActivity :=
  { type := "Run", average_heartrate := some hr, average_speed := 1000 / paceSec
    moving_time := 1200, suffer_score := none, max_heartrate := none }

/-- The spec §8 scenario history: 6 sessions, heart rates
[130,135,140,150,165,180], paces [360,350,340,320,300,280] sec/km,
duration 1200 s each. -/
def scenario6 : List RawActivity :=
  [mkRun 360 130, mkRun 350 135, mkRun 340 140, mkRun 320 150, mkRun 300 165, mkRun 280 180]

/-- A 7-session history on which the slope-based detector resolves both
thresholds through the percentile fallback and returns an inverted pair:
the heart-rate/pace relation is deliberately non-monotone. -/
def historyInv : List RawActivity :=
  [mkRun 410 130, mkRun 400 140, mkRun 390 155, mkRun 380 170,
   mkRun 370 145, mkRun 360 160, mkRun 350 180]

/-- A fresh athlete profile: age 35, nothing else stored. -/
def athleteFresh : Athlete :=
  { age := some 35, max_hr_calculated := none, max_hr_actual := none
    critical_speed := none, zone1_pace := none, zone2_pace := none
    zone3_pace := none, zone4_pace := none, zone5_pace := none
    lt1_pace := none, lt2_pace := none, lt1_hr := none, lt2_hr := none
    rpe_count := none, awaiting_input := none }

/-- A profile with a stored anaerobic threshold of 250 sec/km ("4:10"). -/
def athlete250 : Athlete := { athleteFresh with lt2_pace := some ⟨4, 10⟩ }

/-- A profile whose threshold is 250 sec/km and whose stored zone strings
are exactly the multiplier-derived bounds for critical pace 250. -/
def athleteZones250 : Athlete :=
  { athleteFresh with
    lt2_pace := some ⟨4, 10⟩, critical_speed := some ⟨4, 10⟩
    zone1_pace := some ⟨5, 38⟩
    zone2_pace := some (⟨5, 0⟩, ⟨5, 38⟩)
    zone3_pace := some (⟨4, 30⟩, ⟨5, 0⟩)
    zone4_pace := some (⟨4, 3⟩, ⟨4, 30⟩)
    zone5_pace := some ⟨4, 3⟩ }

/-- A profile with 5 effort ratings already recorded. -/
def athleteCount5 : Athlete := { athleteFresh with rpe_count := some 5 }

/-- A session at 250 sec/km ("4:10"): exactly the stored threshold pace. -/
def act250 : Activity := ⟨some ⟨4, 10⟩⟩

/-- A session at 350 sec/km ("5:50"): 40% slower than a 250 sec/km
threshold, outside the 10% band. -/
def act350 : Activity := ⟨some ⟨5, 50⟩⟩

/-- The estimate the HRmax-anchored detector computes for `athleteFresh`
on `scenario6` (LT1 pace 332 = "5:32", LT2 pace 301 = "5:01"). -/
def zonesScenario6 : ZonesResultHrmax :=
  { runsAnalyzed := 6, maxHrSeen := 180, maxHrUsed := 184
    lt1 := ⟨5, 32⟩, lt2 := ⟨5, 1⟩, lt1Hr := 144, lt2Hr := 164
    criticalSpeed := ⟨5, 1⟩
    z1 := ⟨6, 46⟩
    z2 := (⟨6, 1⟩, ⟨6, 46⟩)
    z3 := (⟨5, 25⟩, ⟨6, 1⟩)
    z4 := (⟨4, 52⟩, ⟨5, 25⟩)
    z5 := ⟨4, 52⟩ }

/-- A two-point sample list used to exercise the interpolation. -/
def dpPair : List DataPoint := [⟨400, 130⟩, ⟨350, 160⟩]


/-! ### Arithmetic helper lemmas -/

theorem le_jsRound {n : ℤ} {x : ℚ} (h : (n : ℚ) ≤ x) : n ≤ jsRound x := by
  unfold jsRound
  rw [Int.le_floor]
  linarith

theorem jsRound_le {n : ℤ} {x : ℚ} (h : x ≤ (n : ℚ)) : jsRound x ≤ n := by
  unfold jsRound
  have hlt : ⌊x + 1/2⌋ < n + 1 := by
    rw [Int.floor_lt]
    push_cast
    linarith
  omega

theorem jsRound_nonneg {x : ℚ} (h : 0 ≤ x) : 0 ≤ jsRound x :=
  le_jsRound (by exact_mod_cast h)

theorem floor_div_sixty (s : ℤ) : ⌊(s : ℚ) / 60⌋ = s / 60 := by
  have h := Rat.floor_intCast_div_natCast s 60
  norm_num at h
  exact h

theorem parsePaceStr_fmt {s : ℤ} (hs : 0 ≤ s) : parsePaceStr (fmt s) = s := by
  show ⌊(s : ℚ) / 60⌋ * 60 + Int.tmod s 60 = s
  rw [floor_div_sixty, Int.tmod_eq_emod hs (by norm_num)]
  omega

/-! ### Lemmas about the scan loop of `interpolatePaceAtHR` -/

/-- Loop body of the `below` accumulator, for reasoning one step at a time;
`scanBelowAux` on a cons unfolds to it definitionally. -/
def stepBelow (t : ℤ) (acc : Option DataPoint) (p : DataPoint) : Option DataPoint :=
  if p.hr ≤ t then
    match acc with
    | none => some p
    | some b => if b.hr < p.hr then some p else some b
  else acc

/-- Loop body of the `above` accumulator. -/
def stepAbove (t : ℤ) (acc : Option DataPoint) (p : DataPoint) : Option DataPoint :=
  if t ≤ p.hr then
    match acc with
    | none => some p
    | some a => if p.hr < a.hr then some p else some a
  else acc

theorem scanBelowAux_cons (t : ℤ) (acc : Option DataPoint) (p : DataPoint)
    (rest : List DataPoint) :
    scanBelowAux t acc (p :: rest) = scanBelowAux t (stepBelow t acc p) rest := rfl

theorem scanAboveAux_cons (t : ℤ) (acc : Option DataPoint) (p : DataPoint)
    (rest : List DataPoint) :
    scanAboveAux t acc (p :: rest) = scanAboveAux t (stepAbove t acc p) rest := rfl

theorem stepBelow_none_eq (t : ℤ) (p : DataPoint) :
    stepBelow t none p = if p.hr ≤ t then some p else none := rfl

theorem stepBelow_some_eq (t : ℤ) (b : DataPoint) (p : DataPoint) :
    stepBelow t (some b) p =
      if p.hr ≤ t then (if b.hr < p.hr then some p else some b) else some b := rfl

theorem stepAbove_none_eq (t : ℤ) (p : DataPoint) :
    stepAbove t none p = if t ≤ p.hr then some p else none := rfl

theorem stepAbove_some_eq (t : ℤ) (a : DataPoint) (p : DataPoint) :
    stepAbove t (some a) p =
      if t ≤ p.hr then (if p.hr < a.hr then some p else some a) else some a := rfl

theorem stepBelow_cases (t : ℤ) (acc : Option DataPoint) (p : DataPoint) :
    stepBelow t acc p = acc ∨ stepBelow t acc p = some p := by
  cases acc with
  | none =>
    rw [stepBelow_none_eq]
    split
    · exact Or.inr rfl
    · exact Or.inl rfl
  | some b =>
    rw [stepBelow_some_eq]
    split
    · split
      · exact Or.inr rfl
      · exact Or.inl rfl
    · exact Or.inl rfl

theorem stepAbove_cases (t : ℤ) (acc : Option DataPoint) (p : DataPoint) :
    stepAbove t acc p = acc ∨ stepAbove t acc p = some p := by
  cases acc with
  | none =>
    rw [stepAbove_none_eq]
    split
    · exact Or.inr rfl
    · exact Or.inl rfl
  | some a =>
    rw [stepAbove_some_eq]
    split
    · split
      · exact Or.inr rfl
      · exact Or.inl rfl
    · exact Or.inl rfl

theorem stepBelow_hr_le (t : ℤ) (acc : Option DataPoint) (p : DataPoint)
    (hacc : ∀ c, acc = some c → c.hr ≤ t) :
    ∀ c, stepBelow t acc p = some c → c.hr ≤ t := by
  intro c hc
  cases acc with
  | none =>
    rw [stepBelow_none_eq] at hc
    split at hc
    · obtain rfl : p = c := Option.some.inj hc
      assumption
    · cases hc
  | some b =>
    rw [stepBelow_some_eq] at hc
    split at hc
    · split at hc
      · obtain rfl : p = c := Option.some.inj hc
        assumption
      · obtain rfl : b = c := Option.some.inj hc
        exact hacc _ rfl
    · obtain rfl : b = c := Option.some.inj hc
      exact hacc _ rfl

theorem stepAbove_hr_ge (t : ℤ) (acc : Option DataPoint) (p : DataPoint)
    (hacc : ∀ c, acc = some c → t ≤ c.hr) :
    ∀ c, stepAbove t acc p = some c → t ≤ c.hr := by
  intro c hc
  cases acc with
  | none =>
    rw [stepAbove_none_eq] at hc
    split at hc
    · obtain rfl : p = c := Option.some.inj hc
      assumption
    · cases hc
  | some a =>
    rw [stepAbove_some_eq] at hc
    split at hc
    · split at hc
      · obtain rfl : p = c := Option.some.inj hc
        assumption
      · obtain rfl : a = c := Option.some.inj hc
        exact hacc _ rfl
    · obtain rfl : a = c := Option.some.inj hc
      exact hacc _ rfl

theorem stepBelow_some_mono (t : ℤ) (c : DataPoint) (p : DataPoint) :
    ∃ d, stepBelow t (some c) p = some d ∧ c.hr ≤ d.hr := by
  rw [stepBelow_some_eq]
  split
  · split
    · next h => exact ⟨p, rfl, le_of_lt h⟩
    · exact ⟨c, rfl, le_refl _⟩
  · exact ⟨c, rfl, le_refl _⟩

theorem stepAbove_some_mono (t : ℤ) (c : DataPoint) (p : DataPoint) :
    ∃ d, stepAbove t (some c) p = some d ∧ d.hr ≤ c.hr := by
  rw [stepAbove_some_eq]
  split
  · split
    · next h => exact ⟨p, rfl, le_of_lt h⟩
    · exact ⟨c, rfl, le_refl _⟩
  · exact ⟨c, rfl, le_refl _⟩

theorem stepBelow_some_of_le (t : ℤ) (acc : Option DataPoint) (p : DataPoint)
    (hp : p.hr ≤ t) : ∃ d, stepBelow t acc p = some d ∧ p.hr ≤ d.hr := by
  cases acc with
  | none =>
    rw [stepBelow_none_eq, if_pos hp]
    exact ⟨p, rfl, le_refl _⟩
  | some b =>
    rw [stepBelow_some_eq, if_pos hp]
    by_cases hb : b.hr < p.hr
    · rw [if_pos hb]
      exact ⟨p, rfl, le_refl _⟩
    · rw [if_neg hb]
      exact ⟨b, rfl, not_lt.mp hb⟩

theorem stepAbove_some_of_ge (t : ℤ) (acc : Option DataPoint) (p : DataPoint)
    (hp : t ≤ p.hr) : ∃ d, stepAbove t acc p = some d ∧ d.hr ≤ p.hr := by
  cases acc with
  | none =>
    rw [stepAbove_none_eq, if_pos hp]
    exact ⟨p, rfl, le_refl _⟩
  | some a =>
    rw [stepAbove_some_eq, if_pos hp]
    by_cases ha : p.hr < a.hr
    · rw [if_pos ha]
      exact ⟨p, rfl, le_refl _⟩
    · rw [if_neg ha]
      exact ⟨a, rfl, not_lt.mp ha⟩

theorem stepBelow_of_not (t : ℤ) (acc : Option DataPoint) (p : DataPoint)
    (hp : ¬ p.hr ≤ t) : stepBelow t acc p = acc := by
  cases acc with
  | none => rw [stepBelow_none_eq, if_neg hp]
  | some b => rw [stepBelow_some_eq, if_neg hp]

theorem stepAbove_of_not (t : ℤ) (acc : Option DataPoint) (p : DataPoint)
    (hp : ¬ t ≤ p.hr) : stepAbove t acc p = acc := by
  cases acc with
  | none => rw [stepAbove_none_eq, if_neg hp]
  | some a => rw [stepAbove_some_eq, if_neg hp]

theorem stepBelow_fix (t : ℤ) (c : DataPoint) (p : DataPoint) (hc : c.hr = t) :
    stepBelow t (some c) p = some c := by
  rw [stepBelow_some_eq]
  by_cases hp : p.hr ≤ t
  · rw [if_pos hp, if_neg (by omega)]
  · rw [if_neg hp]

theorem stepAbove_fix (t : ℤ) (c : DataPoint) (p : DataPoint) (hc : c.hr = t) :
    stepAbove t (some c) p = some c := by
  rw [stepAbove_some_eq]
  by_cases hp : t ≤ p.hr
  · rw [if_pos hp, if_neg (by omega)]
  · rw [if_neg hp]

theorem scanBelowAux_mem (t : ℤ) (b : DataPoint) :
    ∀ (l : List DataPoint) (acc : Option DataPoint),
      scanBelowAux t acc l = some b → acc = some b ∨ b ∈ l := by
  intro l
  induction l with
  | nil => intro acc h; exact Or.inl h
  | cons p rest ih =>
    intro acc h
    rw [scanBelowAux_cons] at h
    rcases ih _ h with h1 | h1
    · rcases stepBelow_cases t acc p with hs | hs
      · exact Or.inl (by rw [← hs]; exact h1)
      · have hb : p = b := Option.some.inj (hs ▸ h1)
        exact Or.inr (hb ▸ List.mem_cons_self p rest)
    · exact Or.inr (List.mem_cons_of_mem _ h1)

theorem scanAboveAux_mem (t : ℤ) (b : DataPoint) :
    ∀ (l : List DataPoint) (acc : Option DataPoint),
      scanAboveAux t acc l = some b → acc = some b ∨ b ∈ l := by
  intro l
  induction l with
  | nil => intro acc h; exact Or.inl h
  | cons p rest ih =>
    intro acc h
    rw [scanAboveAux_cons] at h
    rcases ih _ h with h1 | h1
    · rcases stepAbove_cases t acc p with hs | hs
      · exact Or.inl (by rw [← hs]; exact h1)
      · have hb : p = b := Option.some.inj (hs ▸ h1)
        exact Or.inr (hb ▸ List.mem_cons_self p rest)
    · exact Or.inr (List.mem_cons_of_mem _ h1)

theorem scanBelowAux_le (t : ℤ) (b : DataPoint) :
    ∀ (l : List DataPoint) (acc : Option DataPoint), (∀ c, acc = some c → c.hr ≤ t) →
      scanBelowAux t acc l = some b → b.hr ≤ t := by
  intro l
  induction l with
  | nil => intro acc hacc h; exact hacc b h
  | cons p rest ih =>
    intro acc hacc h
    rw [scanBelowAux_cons] at h
    exact ih _ (stepBelow_hr_le t acc p hacc) h

theorem scanAboveAux_ge (t : ℤ) (b : DataPoint) :
    ∀ (l : List DataPoint) (acc : Option DataPoint), (∀ c, acc = some c → t ≤ c.hr) →
      scanAboveAux t acc l = some b → t ≤ b.hr := by
  intro l
  induction l with
  | nil => intro acc hacc h; exact hacc b h
  | cons p rest ih =>
    intro acc hacc h
    rw [scanAboveAux_cons] at h
    exact ih _ (stepAbove_hr_ge t acc p hacc) h

theorem scanBelowAux_acc_mono (t : ℤ) (b : DataPoint) :
    ∀ (l : List DataPoint) (c : DataPoint),
      scanBelowAux t (some c) l = some b → c.hr ≤ b.hr := by
  intro l
  induction l with
  | nil =>
    intro c h
    obtain rfl : c = b := Option.some.inj h
    exact le_refl _
  | cons p rest ih =>
    intro c h
    rw [scanBelowAux_cons] at h
    obtain ⟨d, hd, hcd⟩ := stepBelow_some_mono t c p
    rw [hd] at h
    exact le_trans hcd (ih d h)

theorem scanAboveAux_acc_mono (t : ℤ) (b : DataPoint) :
    ∀ (l : List DataPoint) (c : DataPoint),
      scanAboveAux t (some c) l = some b → b.hr ≤ c.hr := by
  intro l
  induction l with
  | nil =>
    intro c h
    obtain rfl : c = b := Option.some.inj h
    exact le_refl _
  | cons p rest ih =>
    intro c h
    rw [scanAboveAux_cons] at h
    obtain ⟨d, hd, hcd⟩ := stepAbove_some_mono t c p
    rw [hd] at h
    exact le_trans (ih d h) hcd

theorem scanBelowAux_max (t : ℤ) (b : DataPoint) :
    ∀ (l : List DataPoint) (acc : Option DataPoint), scanBelowAux t acc l = some b →
      ∀ p ∈ l, p.hr ≤ t → p.hr ≤ b.hr := by
  intro l
  induction l with
  | nil => intro acc _ p hp; cases hp
  | cons q rest ih =>
    intro acc h p hp hpt
    rw [scanBelowAux_cons] at h
    rcases List.mem_cons.mp hp with rfl | hpr
    · obtain ⟨d, hd, hpd⟩ := stepBelow_some_of_le t acc p hpt
      rw [hd] at h
      exact le_trans hpd (scanBelowAux_acc_mono t b rest d h)
    · exact ih _ h p hpr hpt

theorem scanAboveAux_min (t : ℤ) (b : DataPoint) :
    ∀ (l : List DataPoint) (acc : Option DataPoint), scanAboveAux t acc l = some b →
      ∀ p ∈ l, t ≤ p.hr → b.hr ≤ p.hr := by
  intro l
  induction l with
  | nil => intro acc _ p hp; cases hp
  | cons q rest ih =>
    intro acc h p hp hpt
    rw [scanAboveAux_cons] at h
    rcases List.mem_cons.mp hp with rfl | hpr
    · obtain ⟨d, hd, hpd⟩ := stepAbove_some_of_ge t acc p hpt
      rw [hd] at h
      exact le_trans (scanAboveAux_acc_mono t b rest d h) hpd
    · exact ih _ h p hpr hpt

theorem scanBelowAux_none (t : ℤ) :
    ∀ (l : List DataPoint) (acc : Option DataPoint), scanBelowAux t acc l = none →
      acc = none ∧ ∀ p ∈ l, t < p.hr := by
  intro l
  induction l with
  | nil =>
    intro acc h
    exact ⟨h, by intro p hp; cases hp⟩
  | cons q rest ih =>
    intro acc h
    rw [scanBelowAux_cons] at h
    obtain ⟨hstep, hrest⟩ := ih _ h
    by_cases hq : q.hr ≤ t
    · obtain ⟨d, hd, hqd⟩ := stepBelow_some_of_le t acc q hq
      rw [hd] at hstep
      cases hstep
    · refine ⟨by rw [← stepBelow_of_not t acc q hq]; exact hstep, ?_⟩
      intro p hp
      rcases List.mem_cons.mp hp with rfl | hpr
      · exact not_le.mp hq
      · exact hrest p hpr

theorem scanAboveAux_none (t : ℤ) :
    ∀ (l : List DataPoint) (acc : Option DataPoint), scanAboveAux t acc l = none →
      acc = none ∧ ∀ p ∈ l, p.hr < t := by
  intro l
  induction l with
  | nil =>
    intro acc h
    exact ⟨h, by intro p hp; cases hp⟩
  | cons q rest ih =>
    intro acc h
    rw [scanAboveAux_cons] at h
    obtain ⟨hstep, hrest⟩ := ih _ h
    by_cases hq : t ≤ q.hr
    · obtain ⟨d, hd, hqd⟩ := stepAbove_some_of_ge t acc q hq
      rw [hd] at hstep
      cases hstep
    · refine ⟨by rw [← stepAbove_of_not t acc q hq]; exact hstep, ?_⟩
      intro p hp
      rcases List.mem_cons.mp hp with rfl | hpr
      · exact not_le.mp hq
      · exact hrest p hpr

theorem scanBelowAux_fixed (t : ℤ) (c : DataPoint) (hc : c.hr = t) :
    ∀ (l : List DataPoint), scanBelowAux t (some c) l = some c := by
  intro l
  induction l with
  | nil => rfl
  | cons p rest ih =>
    rw [scanBelowAux_cons, stepBelow_fix t c p hc]
    exact ih

theorem scanAboveAux_fixed (t : ℤ) (c : DataPoint) (hc : c.hr = t) :
    ∀ (l : List DataPoint), scanAboveAux t (some c) l = some c := by
  intro l
  induction l with
  | nil => rfl
  | cons p rest ih =>
    rw [scanAboveAux_cons, stepAbove_fix t c p hc]
    exact ih

theorem scanBelowAux_first (t : ℤ) (b : DataPoint) :
    ∀ (l : List DataPoint) (acc : Option DataPoint), (∀ c, acc = some c → c.hr < t) →
      scanBelowAux t acc l = some b → b.hr = t →
      l.find? (fun p => decide (p.hr = t)) = some b := by
  intro l
  induction l with
  | nil =>
    intro acc hacc h hb
    exact absurd hb (ne_of_lt (hacc b h))
  | cons q rest ih =>
    intro acc hacc h hb
    rw [scanBelowAux_cons] at h
    by_cases hq : q.hr ≤ t
    · by_cases hqt : q.hr = t
      · have hstep : stepBelow t acc q = some q := by
          cases hc : acc with
          | none => rw [stepBelow_none_eq, if_pos hq]
          | some c => rw [stepBelow_some_eq, if_pos hq, if_pos (by have := hacc c hc; omega)]
        rw [hstep, scanBelowAux_fixed t q hqt] at h
        obtain rfl : q = b := Option.some.inj h
        simp [List.find?_cons, hqt]
      · have hstep : ∀ c, stepBelow t acc q = some c → c.hr < t := by
          intro c hcstep
          cases hc : acc with
          | none =>
            rw [hc, stepBelow_none_eq, if_pos hq] at hcstep
            obtain rfl : q = c := Option.some.inj hcstep
            omega
          | some c0 =>
            rw [hc, stepBelow_some_eq, if_pos hq] at hcstep
            split at hcstep
            · obtain rfl : q = c := Option.some.inj hcstep
              omega
            · obtain rfl : c0 = c := Option.some.inj hcstep
              exact hacc _ hc
        have hrest := ih (stepBelow t acc q) hstep h hb
        simpa [List.find?_cons, hqt] using hrest
    · rw [stepBelow_of_not t acc q hq] at h
      have hrest := ih acc hacc h hb
      have hqt : ¬ q.hr = t := by omega
      simpa [List.find?_cons, hqt] using hrest

theorem scanAboveAux_first (t : ℤ) (b : DataPoint) :
    ∀ (l : List DataPoint) (acc : Option DataPoint), (∀ c, acc = some c → t < c.hr) →
      scanAboveAux t acc l = some b → b.hr = t →
      l.find? (fun p => decide (p.hr = t)) = some b := by
  intro l
  induction l with
  | nil =>
    intro acc hacc h hb
    exact absurd hb (ne_of_gt (hacc b h))
  | cons q rest ih =>
    intro acc hacc h hb
    rw [scanAboveAux_cons] at h
    by_cases hq : t ≤ q.hr
    · by_cases hqt : q.hr = t
      · have hstep : stepAbove t acc q = some q := by
          cases hc : acc with
          | none => rw [stepAbove_none_eq, if_pos hq]
          | some c => rw [stepAbove_some_eq, if_pos hq, if_pos (by have := hacc c hc; omega)]
        rw [hstep, scanAboveAux_fixed t q hqt] at h
        obtain rfl : q = b := Option.some.inj h
        simp [List.find?_cons, hqt]
      · have hstep : ∀ c, stepAbove t acc q = some c → t < c.hr := by
          intro c hcstep
          cases hc : acc with
          | none =>
            rw [hc, stepAbove_none_eq, if_pos hq] at hcstep
            obtain rfl : q = c := Option.some.inj hcstep
            omega
          | some c0 =>
            rw [hc, stepAbove_some_eq, if_pos hq] at hcstep
            split at hcstep
            · obtain rfl : q = c := Option.some.inj hcstep
              omega
            · obtain rfl : c0 = c := Option.some.inj hcstep
              exact hacc _ hc
        have hrest := ih (stepAbove t acc q) hstep h hb
        simpa [List.find?_cons, hqt] using hrest
    · rw [stepAbove_of_not t acc q hq] at h
      have hrest := ih acc hacc h hb
      have hqt : ¬ q.hr = t := by omega
      simpa [List.find?_cons, hqt] using hrest

/-! ### Facts about `scanBelow`, `scanAbove` and `interpolatePaceAtHR` -/

theorem scanBelow_mem {t : ℤ} {l : List DataPoint} {b : DataPoint}
    (h : scanBelow t l = some b) : b ∈ l := by
  rcases scanBelowAux_mem t b l none h with h1 | h1
  · cases h1
  · exact h1

theorem scanAbove_mem {t : ℤ} {l : List DataPoint} {a : DataPoint}
    (h : scanAbove t l = some a) : a ∈ l := by
  rcases scanAboveAux_mem t a l none h with h1 | h1
  · cases h1
  · exact h1

theorem scanBelow_le {t : ℤ} {l : List DataPoint} {b : DataPoint}
    (h : scanBelow t l = some b) : b.hr ≤ t :=
  scanBelowAux_le t b l none (by intro c hc; cases hc) h

theorem scanAbove_ge {t : ℤ} {l : List DataPoint} {a : DataPoint}
    (h : scanAbove t l = some a) : t ≤ a.hr :=
  scanAboveAux_ge t a l none (by intro c hc; cases hc) h

theorem scanBelow_max {t : ℤ} {l : List DataPoint} {b : DataPoint}
    (h : scanBelow t l = some b) : ∀ p ∈ l, p.hr ≤ t → p.hr ≤ b.hr :=
  scanBelowAux_max t b l none h

theorem scanAbove_min {t : ℤ} {l : List DataPoint} {a : DataPoint}
    (h : scanAbove t l = some a) : ∀ p ∈ l, t ≤ p.hr → a.hr ≤ p.hr :=
  scanAboveAux_min t a l none h

theorem scanBelow_none {t : ℤ} {l : List DataPoint}
    (h : scanBelow t l = none) : ∀ p ∈ l, t < p.hr :=
  (scanBelowAux_none t l none h).2

theorem scanAbove_none {t : ℤ} {l : List DataPoint}
    (h : scanAbove t l = none) : ∀ p ∈ l, p.hr < t :=
  (scanAboveAux_none t l none h).2

/-- When both scans succeed with the same heart rate, they picked the same
sample: each then returns the first sample whose heart rate equals the
target.  This is why JS reference equality `below !== above` agrees with
structural equality. -/
theorem scanBelow_eq_scanAbove_of_hr_eq {t : ℤ} {l : List DataPoint} {b a : DataPoint}
    (hb : scanBelow t l = some b) (ha : scanAbove t l = some a)
    (hhr : b.hr = a.hr) : b = a := by
  have hbt : b.hr ≤ t := scanBelow_le hb
  have hat : t ≤ a.hr := scanAbove_ge ha
  have hbt2 : b.hr = t := by omega
  have hat2 : a.hr = t := by omega
  have f1 := scanBelowAux_first t b l none (by intro c hc; cases hc) hb hbt2
  have f2 := scanAboveAux_first t a l none (by intro c hc; cases hc) ha hat2
  exact Option.some.inj (f1.symm.trans f2)

theorem scanBelow_hr_lt_scanAbove {t : ℤ} {l : List DataPoint} {b a : DataPoint}
    (hb : scanBelow t l = some b) (ha : scanAbove t l = some a)
    (hne : b ≠ a) : b.hr < a.hr := by
  have hbt : b.hr ≤ t := scanBelow_le hb
  have hat : t ≤ a.hr := scanAbove_ge ha
  rcases lt_or_eq_of_le (le_trans hbt hat) with h | h
  · exact h
  · exact absurd (scanBelow_eq_scanAbove_of_hr_eq hb ha h) hne

/-- The interpolated value `below.pace + ratio * (above.pace - below.pace)`
with `ratio = (t - below.hr) / (above.hr - below.hr)` rounds to an integer
inside the closed interval spanned by the two bracketing paces. -/
theorem interp_value_bounds {b a : DataPoint} {t : ℤ}
    (hlt : b.hr < a.hr) (hbt : b.hr ≤ t) (hat : t ≤ a.hr) :
    min b.paceSecPerKm a.paceSecPerKm ≤
      jsRound ((b.paceSecPerKm : ℚ) +
        ((t : ℚ) - b.hr) / ((a.hr : ℚ) - b.hr) *
          ((a.paceSecPerKm : ℚ) - b.paceSecPerKm)) ∧
    jsRound ((b.paceSecPerKm : ℚ) +
      ((t : ℚ) - b.hr) / ((a.hr : ℚ) - b.hr) *
        ((a.paceSecPerKm : ℚ) - b.paceSecPerKm)) ≤
      max b.paceSecPerKm a.paceSecPerKm := by
  have hden : (0 : ℚ) < (a.hr : ℚ) - b.hr := by
    have : (b.hr : ℚ) < a.hr := by exact_mod_cast hlt
    linarith
  have hnum0 : (0 : ℚ) ≤ (t : ℚ) - b.hr := by
    have : (b.hr : ℚ) ≤ t := by exact_mod_cast hbt
    linarith
  have hnum1 : (t : ℚ) - b.hr ≤ (a.hr : ℚ) - b.hr := by
    have : (t : ℚ) ≤ a.hr := by exact_mod_cast hat
    linarith
  have hth0 : (0 : ℚ) ≤ ((t : ℚ) - b.hr) / ((a.hr : ℚ) - b.hr) :=
    div_nonneg hnum0 (le_of_lt hden)
  have hth1 : ((t : ℚ) - b.hr) / ((a.hr : ℚ) - b.hr) ≤ 1 :=
    (div_le_one hden).mpr hnum1
  set th : ℚ := ((t : ℚ) - b.hr) / ((a.hr : ℚ) - b.hr) with hth
  have hv0 : ((min b.paceSecPerKm a.paceSecPerKm : ℤ) : ℚ) ≤
      (b.paceSecPerKm : ℚ) + th * ((a.paceSecPerKm : ℚ) - b.paceSecPerKm) := by
    push_cast
    rcases le_total (b.paceSecPerKm : ℚ) (a.paceSecPerKm : ℚ) with hle | hle
    · rw [min_eq_left (by exact_mod_cast hle)]
      nlinarith
    · rw [min_eq_right (by exact_mod_cast hle)]
      nlinarith
  have hv1 : (b.paceSecPerKm : ℚ) + th * ((a.paceSecPerKm : ℚ) - b.paceSecPerKm) ≤
      ((max b.paceSecPerKm a.paceSecPerKm : ℤ) : ℚ) := by
    push_cast
    rcases le_total (b.paceSecPerKm : ℚ) (a.paceSecPerKm : ℚ) with hle | hle
    · rw [max_eq_right (by exact_mod_cast hle)]
      nlinarith
    · rw [max_eq_left (by exact_mod_cast hle)]
      nlinarith
  exact ⟨le_jsRound hv0, jsRound_le hv1⟩

/-- Every value returned by the interpolation lies between the paces of two
members of the sample list (possibly the same member). -/
theorem interpolatePaceAtHR_bounds {l : List DataPoint} {t : ℤ} {r : ℤ}
    (h : interpolatePaceAtHR l t = some r) :
    ∃ p ∈ l, ∃ q ∈ l,
      min p.paceSecPerKm q.paceSecPerKm ≤ r ∧ r ≤ max p.paceSecPerKm q.paceSecPerKm := by
  unfold interpolatePaceAtHR at h
  cases hb : scanBelow t l with
  | none =>
    rw [hb] at h
    cases ha : scanAbove t l with
    | none => rw [ha] at h; cases h
    | some a =>
      rw [ha] at h
      obtain rfl : a.paceSecPerKm = r := Option.some.inj h
      exact ⟨a, scanAbove_mem ha, a, scanAbove_mem ha, by simp, by simp⟩
  | some b =>
    rw [hb] at h
    cases ha : scanAbove t l with
    | none =>
      rw [ha] at h
      obtain rfl : b.paceSecPerKm = r := Option.some.inj h
      exact ⟨b, scanBelow_mem hb, b, scanBelow_mem hb, by simp, by simp⟩
    | some a =>
      rw [ha] at h
      replace h : (if b = a then some b.paceSecPerKm
          else some (jsRound ((b.paceSecPerKm : ℚ) +
            ((t : ℚ) - b.hr) / ((a.hr : ℚ) - b.hr) *
              ((a.paceSecPerKm : ℚ) - b.paceSecPerKm)))) = some r := h
      by_cases hba : b = a
      · rw [if_pos hba] at h
        obtain rfl : b.paceSecPerKm = r := Option.some.inj h
        exact ⟨b, scanBelow_mem hb, b, scanBelow_mem hb, by simp, by simp⟩
      · rw [if_neg hba] at h
        obtain rfl :
            jsRound ((b.paceSecPerKm : ℚ) +
              ((t : ℚ) - b.hr) / ((a.hr : ℚ) - b.hr) *
                ((a.paceSecPerKm : ℚ) - b.paceSecPerKm)) = r := Option.some.inj h
        have hlt : b.hr < a.hr := scanBelow_hr_lt_scanAbove hb ha hba
        have hbds := interp_value_bounds hlt (scanBelow_le hb) (scanAbove_ge ha)
        exact ⟨b, scanBelow_mem hb, a, scanAbove_mem ha, hbds.1, hbds.2⟩

/-- On a nonempty sample list the interpolation always returns a value. -/
theorem interpolatePaceAtHR_isSome {l : List DataPoint} {t : ℤ}
    (hl : l ≠ []) : ∃ r, interpolatePaceAtHR l t = some r := by
  unfold interpolatePaceAtHR
  obtain ⟨p, hp⟩ : ∃ p, p ∈ l := by
    cases l with
    | nil => exact absurd rfl hl
    | cons q rest => exact ⟨q, List.mem_cons_self q rest⟩
  cases hb : scanBelow t l with
  | none =>
    cases ha : scanAbove t l with
    | none =>
      have h1 := scanBelow_none hb p hp
      have h2 := scanAbove_none ha p hp
      omega
    | some a => exact ⟨a.paceSecPerKm, rfl⟩
  | some b =>
    cases ha : scanAbove t l with
    | none => exact ⟨b.paceSecPerKm, rfl⟩
    | some a =>
      show ∃ r, (if b = a then some b.paceSecPerKm
        else some (jsRound ((b.paceSecPerKm : ℚ) +
          ((t : ℚ) - b.hr) / ((a.hr : ℚ) - b.hr) *
            ((a.paceSecPerKm : ℚ) - b.paceSecPerKm)))) = some r
      by_cases hba : b = a
      · rw [if_pos hba]
        exact ⟨_, rfl⟩
      · rw [if_neg hba]
        exact ⟨_, rfl⟩

theorem interpolatePaceAtHR_nonneg {l : List DataPoint} {t : ℤ} {r : ℤ}
    (hl : ∀ p ∈ l, 0 ≤ p.paceSecPerKm)
    (h : interpolatePaceAtHR l t = some r) : 0 ≤ r := by
  obtain ⟨p, hp, q, hq, h0, _⟩ := interpolatePaceAtHR_bounds h
  have := hl p hp
  have := hl q hq
  rcases min_cases p.paceSecPerKm q.paceSecPerKm with ⟨hmin, _⟩ | ⟨hmin, _⟩ <;> omega

/-! ### Membership through sorting and trimming -/

theorem insertOn_mem {key : DataPoint → ℤ} {x a : DataPoint} :
    ∀ {l : List DataPoint}, a ∈ insertOn key x l → a = x ∨ a ∈ l := by
  intro l
  induction l with
  | nil =>
    intro h
    rcases List.mem_singleton.mp h with rfl
    exact Or.inl rfl
  | cons y ys ih =>
    intro h
    unfold insertOn at h
    split at h
    · rcases List.mem_cons.mp h with rfl | h1
      · exact Or.inr (List.mem_cons_self _ _)
      · rcases ih h1 with h2 | h2
        · exact Or.inl h2
        · exact Or.inr (List.mem_cons_of_mem _ h2)
    · rcases List.mem_cons.mp h with rfl | h1
      · exact Or.inl rfl
      · exact Or.inr h1

theorem sortOn_mem {key : DataPoint → ℤ} {a : DataPoint} :
    ∀ {l : List DataPoint}, a ∈ sortOn key l → a ∈ l := by
  intro l
  induction l with
  | nil => intro h; cases h
  | cons x xs ih =>
    intro h
    unfold sortOn at h
    rcases insertOn_mem h with rfl | h1
    · exact List.mem_cons_self _ _
    · exact List.mem_cons_of_mem _ (ih h1)

theorem trimOutliers_mem {l : List DataPoint} {p : DataPoint}
    (h : p ∈ trimOutliers l) : p ∈ l := by
  unfold trimOutliers at h
  exact List.take_subset _ _ (List.drop_subset _ _ h)

theorem mkDataPoints_pace_nonneg {acts : List RawActivity} {p : DataPoint}
    (hp : p ∈ mkDataPoints (acts.filter qualityRunHrmax)) : 0 ≤ p.paceSecPerKm := by
  unfold mkDataPoints at hp
  obtain ⟨r, hr, rfl⟩ := List.mem_map.mp hp
  have hq : qualityRunHrmax r = true := List.of_mem_filter hr
  have hspeed : 0 < r.average_speed := (of_decide_eq_true hq).2.2.1
  exact jsRound_nonneg (le_of_lt (by positivity))

theorem trimmed_pace_nonneg {acts : List RawActivity} {p : DataPoint}
    (hp : p ∈ trimOutliers
      (sortOn (fun q => q.hr) (mkDataPoints (acts.filter qualityRunHrmax)))) :
    0 ≤ p.paceSecPerKm :=
  mkDataPoints_pace_nonneg (sortOn_mem (trimOutliers_mem hp))

theorem jsTruthyInt_some {o : Option ℤ} {v : ℤ} (h : jsTruthyInt o = some v) :
    o = some v := by
  cases o with
  | none => cases h
  | some w =>
    replace h : (if w = 0 then none else some w) = some v := h
    split at h
    · cases h
    · exact h

/-! ### Shape of a successful HRmax-anchored detection -/

/-- Every estimate returned by the HRmax-anchored detector carries two
nonnegative threshold paces with the anaerobic one (`lt2`) at most the
aerobic one (`lt1`), critical speed equal to the anaerobic pace, and all
five zone strings derived from it by the fixed multipliers. -/
theorem calculateZonesFromStravaHrmax_shape {athlete : Athlete}
    {activities : List RawActivity} {z : ZonesResultHrmax}
    (h : calculateZonesFromStravaHrmax athlete activities = some z) :
    ∃ L1 L2 : ℤ, 0 ≤ L2 ∧ L2 ≤ L1 ∧
      z.lt1 = fmt L1 ∧ z.lt2 = fmt L2 ∧ z.criticalSpeed = fmt L2 ∧
      z.z1 = fmt (zoneBoundsNum L2).z1 ∧
      z.z2 = (fmt (zoneBoundsNum L2).z2lo, fmt (zoneBoundsNum L2).z2hi) ∧
      z.z3 = (fmt (zoneBoundsNum L2).z3lo, fmt (zoneBoundsNum L2).z3hi) ∧
      z.z4 = (fmt (zoneBoundsNum L2).z4lo, fmt (zoneBoundsNum L2).z4hi) ∧
      z.z5 = fmt (zoneBoundsNum L2).z5 := by
  simp only [calculateZonesFromStravaHrmax] at h
  split at h
  · cases h
  · split at h
    · cases h
    · split at h
      · next lt1P lt2P heq1 heq2 =>
          have hint1 := jsTruthyInt_some heq1
          have hint2 := jsTruthyInt_some heq2
          have h1nn : 0 ≤ lt1P :=
            interpolatePaceAtHR_nonneg (fun p hp => trimmed_pace_nonneg hp) hint1
          have h2nn : 0 ≤ lt2P :=
            interpolatePaceAtHR_nonneg (fun p hp => trimmed_pace_nonneg hp) hint2
          split at h
          · next hswap =>
              obtain rfl := Option.some.inj h
              exact ⟨lt2P, lt1P, h1nn, hswap, rfl, rfl, rfl, rfl, rfl, rfl, rfl, rfl⟩
          · next hswap =>
              obtain rfl := Option.some.inj h
              exact ⟨lt1P, lt2P, h2nn, le_of_not_le hswap, rfl, rfl, rfl, rfl, rfl, rfl,
                rfl, rfl⟩
      · cases h

/-! ### Behaviour of the recalibration loop -/

theorem adjustZonesFromRPE_le5 {athlete : Athlete} {act : Activity} {rpe : ℤ}
    {p ap : PaceStr} (hp : athlete.lt2_pace = some p) (hap : act.avg_pace = some ap)
    (hband : isThresholdSession (parsePaceStr ap) (parsePaceStr p)) (h5 : rpe ≤ 5) :
    adjustZonesFromRPE athlete rpe (some act) =
      (some Adjustment.faster,
        { athlete with
          lt2_pace := some (formatSecondsToMinKm (parsePaceStr p - 5))
          critical_speed := some (formatSecondsToMinKm (parsePaceStr p - 5)) }) := by
  simp only [adjustZonesFromRPE, hp, hap]
  rw [if_pos hband, if_pos h5]

theorem adjustZonesFromRPE_ge9 {athlete : Athlete} {act : Activity} {rpe : ℤ}
    {p ap : PaceStr} (hp : athlete.lt2_pace = some p) (hap : act.avg_pace = some ap)
    (hband : isThresholdSession (parsePaceStr ap) (parsePaceStr p)) (h9 : 9 ≤ rpe) :
    adjustZonesFromRPE athlete rpe (some act) =
      (some Adjustment.slower,
        { athlete with
          lt2_pace := some (formatSecondsToMinKm (parsePaceStr p + 5))
          critical_speed := some (formatSecondsToMinKm (parsePaceStr p + 5)) }) := by
  simp only [adjustZonesFromRPE, hp, hap]
  rw [if_pos hband, if_neg (by omega), if_pos h9]

theorem adjustZonesFromRPE_mid {athlete : Athlete} {act : Activity} {rpe : ℤ}
    {p ap : PaceStr} (hp : athlete.lt2_pace = some p) (hap : act.avg_pace = some ap)
    (hband : isThresholdSession (parsePaceStr ap) (parsePaceStr p))
    (h6 : 6 ≤ rpe) (h8 : rpe ≤ 8) :
    adjustZonesFromRPE athlete rpe (some act) = (none, athlete) := by
  simp only [adjustZonesFromRPE, hp, hap]
  rw [if_pos hband, if_neg (by omega), if_neg (by omega)]

theorem adjustZonesFromRPE_notband {athlete : Athlete} {act : Activity} {rpe : ℤ}
    {p ap : PaceStr} (hp : athlete.lt2_pace = some p) (hap : act.avg_pace = some ap)
    (hout : ¬ isThresholdSession (parsePaceStr ap) (parsePaceStr p)) :
    adjustZonesFromRPE athlete rpe (some act) = (none, athlete) := by
  simp only [adjustZonesFromRPE, hp, hap]
  rw [if_neg hout]

/-- A nudge never touches the zone strings, the aerobic threshold, the
stored heart rates, the counters or any other field except `lt2_pace`
and `critical_speed`. -/
theorem adjustZonesFromRPE_frame (athlete : Athlete) (rpe : ℤ) (act : Option Activity) :
    ((adjustZonesFromRPE athlete rpe act).2).age = athlete.age ∧
    ((adjustZonesFromRPE athlete rpe act).2).max_hr_calculated = athlete.max_hr_calculated ∧
    ((adjustZonesFromRPE athlete rpe act).2).max_hr_actual = athlete.max_hr_actual ∧
    ((adjustZonesFromRPE athlete rpe act).2).zone1_pace = athlete.zone1_pace ∧
    ((adjustZonesFromRPE athlete rpe act).2).zone2_pace = athlete.zone2_pace ∧
    ((adjustZonesFromRPE athlete rpe act).2).zone3_pace = athlete.zone3_pace ∧
    ((adjustZonesFromRPE athlete rpe act).2).zone4_pace = athlete.zone4_pace ∧
    ((adjustZonesFromRPE athlete rpe act).2).zone5_pace = athlete.zone5_pace ∧
    ((adjustZonesFromRPE athlete rpe act).2).lt1_pace = athlete.lt1_pace ∧
    ((adjustZonesFromRPE athlete rpe act).2).lt1_hr = athlete.lt1_hr ∧
    ((adjustZonesFromRPE athlete rpe act).2).lt2_hr = athlete.lt2_hr ∧
    ((adjustZonesFromRPE athlete rpe act).2).rpe_count = athlete.rpe_count ∧
    ((adjustZonesFromRPE athlete rpe act).2).awaiting_input = athlete.awaiting_input := by
  rcases act with _ | a
  · simp [adjustZonesFromRPE]
  · rcases hlp : athlete.lt2_pace with _ | p
    · simp [adjustZonesFromRPE, hlp]
    · rcases hap : a.avg_pace with _ | ap
      · simp [adjustZonesFromRPE, hlp, hap]
      · simp only [adjustZonesFromRPE, hlp, hap]
        split
        · split
          · simp
          · split
            · simp
            · simp
        · simp

theorem runZoneCalculation_rpe_count (athlete : Athlete) (activities : List RawActivity) :
    (runZoneCalculation athlete activities).rpe_count = athlete.rpe_count := by
  unfold runZoneCalculation
  split <;> rfl

theorem runZoneCalculation_of_none {athlete : Athlete} {activities : List RawActivity}
    (h : calculateZonesFromStravaHrmax athlete activities = none) :
    runZoneCalculation athlete activities = athlete := by
  unfold runZoneCalculation
  rw [h]

theorem runZoneCalculation_of_some {athlete : Athlete} {activities : List RawActivity}
    {z : ZonesResultHrmax} (h : calculateZonesFromStravaHrmax athlete activities = some z) :
    runZoneCalculation athlete activities =
      { athlete with
        critical_speed := some z.criticalSpeed
        zone1_pace := some z.z1
        zone2_pace := some z.z2
        zone3_pace := some z.z3
        zone4_pace := some z.z4
        zone5_pace := some z.z5
        lt1_pace := some z.lt1
        lt2_pace := some z.lt2
        lt1_hr := some z.lt1Hr
        lt2_hr := some z.lt2Hr
        max_hr_actual := some z.maxHrSeen
        awaiting_input := none } := by
  unfold runZoneCalculation
  rw [h]

theorem handleRpeCallback_no_recalc {athlete : Athlete} {act : Option Activity} {rpe : ℤ}
    {activities : List RawActivity}
    (h : ¬ (3 ≤ jsOrInt athlete.rpe_count 0 + 1 ∧ (jsOrInt athlete.rpe_count 0 + 1) % 3 = 0)) :
    handleRpeCallback athlete act rpe activities =
      { (adjustZonesFromRPE athlete rpe act).2 with
        rpe_count := some (jsOrInt athlete.rpe_count 0 + 1) } := by
  unfold handleRpeCallback
  rw [if_neg h]

/-! ### Claim theorems -/

theorem formatSecondsToMinKm_eq_fmt (s : ℤ) : formatSecondsToMinKm s = fmt s := rfl

/-- How far `Math.round` can move a value: at most half a unit. -/
theorem jsRound_close (x : ℚ) : |(jsRound x : ℚ) - x| ≤ 1/2 := by
  unfold jsRound
  rw [abs_le]
  have h1 : (⌊x + 1/2⌋ : ℚ) ≤ x + 1/2 := Int.floor_le _
  have h2 : x + 1/2 < (⌊x + 1/2⌋ : ℚ) + 1 := Int.lt_floor_add_one _
  constructor <;> linarith

/-- The HRmax-anchored detector on the spec §8 scenario history. -/
theorem calcHrmax_scenario6 :
    calculateZonesFromStravaHrmax athleteFresh scenario6 = some zonesScenario6 := by
  with_unfolding_all decide

/-- Claim C1, counterexample: the slope-based detector (first snapshot,
which has no inversion swap) returns, on the 7-session history
`historyInv`, an estimate whose anaerobic-threshold pace (370 sec/km,
resolved by the percentile fallback) is strictly greater than its
aerobic-threshold pace (366 sec/km) — so as stated over the detector
code cited at lines 342-386 the claim is false. -/
theorem C1_slope_returns_inverted :
    (calculateZonesFromStravaSlope historyInv).map
      (fun z => (parsePaceStr z.lt1, parsePaceStr z.lt2)) = some (366, 370) ∧
    (366 : ℤ) < 370 := by
  constructor
  · with_unfolding_all decide
  · decide

/-- Claim C1 (amended): the HRmax-anchored detector — the snapshot that
performs the swap at lines 1532-1541 — never returns an estimate with
`anaerobicThresholdPaceSec > aerobicThresholdPaceSec`; whenever the
resolved anaerobic pace is greater than or equal to the aerobic pace it
swaps both the pace pair and the heart-rate pair before returning.  Its
critical speed always equals the returned anaerobic-threshold pace. -/
theorem C1_hrmax_never_inverted (athlete : Athlete) (activities : List RawActivity)
    (z : ZonesResultHrmax) (h : calculateZonesFromStravaHrmax athlete activities = some z) :
    parsePaceStr z.lt2 ≤ parsePaceStr z.lt1 ∧ z.criticalSpeed = z.lt2 := by
  obtain ⟨L1, L2, hL2, hle, hlt1, hlt2, hcs, _, _, _, _, _⟩ :=
    calculateZonesFromStravaHrmax_shape h
  constructor
  · rw [hlt1, hlt2, parsePaceStr_fmt hL2, parsePaceStr_fmt (le_trans hL2 hle)]
    exact hle
  · rw [hcs, hlt2]

/-- Witness for C1: the invariant instantiated on the 6-session scenario. -/
theorem C1_hrmax_never_inverted_witness :
    parsePaceStr zonesScenario6.lt2 ≤ parsePaceStr zonesScenario6.lt1 ∧
    zonesScenario6.criticalSpeed = zonesScenario6.lt2 :=
  C1_hrmax_never_inverted athleteFresh scenario6 zonesScenario6 calcHrmax_scenario6

/-- Claim C2, counterexample: for `cs = 240` the coded zone-4 lower bound
is `Math.round(240 * 0.97) = 233`, not exactly `232.8`, and the coded
zone-2 upper bound is `Math.round(240 * 1.35) = 324`, not `360` — the
claim's exact bounds are both wrong on the code. -/
theorem C2_exact_bounds_fail :
    ((zoneBoundsNum 240).z4lo : ℚ) ≠ 2328/10 ∧ ((zoneBoundsNum 240).z2hi : ℚ) ≠ 360 := by
  constructor <;> with_unfolding_all decide

/-- Claim C2 (amended): zone derivation is a total function of `cs` whose
bounds are the fixed multipliers 1.35, 1.20, 1.08, 0.97 of `cs` rounded
to the nearest whole second (each bound is within 1/2 of the exact
multiple); for `cs = 240` the zone-4 bounds are `[233, 259]` and the
zone-2 bounds are `[288, 324]`. -/
theorem C2_rounded_bounds :
    (zoneBoundsNum 240).z4lo = 233 ∧ (zoneBoundsNum 240).z4hi = 259 ∧
    (zoneBoundsNum 240).z2lo = 288 ∧ (zoneBoundsNum 240).z2hi = 324 ∧
    ∀ cs : ℤ,
      |((zoneBoundsNum cs).z4lo : ℚ) - cs * (97/100)| ≤ 1/2 ∧
      |((zoneBoundsNum cs).z4hi : ℚ) - cs * (108/100)| ≤ 1/2 ∧
      |((zoneBoundsNum cs).z2lo : ℚ) - cs * (12/10)| ≤ 1/2 ∧
      |((zoneBoundsNum cs).z2hi : ℚ) - cs * (135/100)| ≤ 1/2 := by
  refine ⟨by with_unfolding_all decide, by with_unfolding_all decide,
    by with_unfolding_all decide, by with_unfolding_all decide, ?_⟩
  intro cs
  simp only [zoneBoundsNum]
  exact ⟨jsRound_close _, jsRound_close _, jsRound_close _, jsRound_close _⟩

/-- Claim C3: when the athlete has a stored anaerobic-threshold pace and
the rated session's pace is within 10% of it, a rating of at most 5
decreases the stored pace by exactly 5 sec/km, a rating of at least 9
increases it by exactly 5 sec/km, and a rating of 6-8 leaves the whole
profile unchanged. -/
theorem C3_rpe_nudges (athlete : Athlete) (act : Activity) (rpe : ℤ) (p ap : PaceStr)
    (hp : athlete.lt2_pace = some p) (hL : 5 ≤ parsePaceStr p)
    (hap : act.avg_pace = some ap)
    (hband : isThresholdSession (parsePaceStr ap) (parsePaceStr p)) :
    (rpe ≤ 5 → ∃ q, ((adjustZonesFromRPE athlete rpe (some act)).2).lt2_pace = some q ∧
      parsePaceStr q = parsePaceStr p - 5) ∧
    (9 ≤ rpe → ∃ q, ((adjustZonesFromRPE athlete rpe (some act)).2).lt2_pace = some q ∧
      parsePaceStr q = parsePaceStr p + 5) ∧
    (6 ≤ rpe → rpe ≤ 8 → (adjustZonesFromRPE athlete rpe (some act)).2 = athlete) := by
  refine ⟨?_, ?_, ?_⟩
  · intro h5
    rw [adjustZonesFromRPE_le5 hp hap hband h5]
    refine ⟨formatSecondsToMinKm (parsePaceStr p - 5), rfl, ?_⟩
    rw [formatSecondsToMinKm_eq_fmt]
    exact parsePaceStr_fmt (by omega)
  · intro h9
    rw [adjustZonesFromRPE_ge9 hp hap hband h9]
    refine ⟨formatSecondsToMinKm (parsePaceStr p + 5), rfl, ?_⟩
    rw [formatSecondsToMinKm_eq_fmt]
    exact parsePaceStr_fmt (by omega)
  · intro h6 h8
    rw [adjustZonesFromRPE_mid hp hap hband h6 h8]

/-- Witness for C3: stored pace 250 sec/km, in-band rating 4 gives 245. -/
theorem C3_rpe_nudges_witness :
    ∃ q, ((adjustZonesFromRPE athlete250 4 (some act250)).2).lt2_pace = some q ∧
      parsePaceStr q = 245 :=
  (C3_rpe_nudges athlete250 act250 4 ⟨4, 10⟩ ⟨4, 10⟩ rfl (by decide) rfl
    (by with_unfolding_all decide)).1 (by decide)

/-- Claim C4, counterexample: an accepted nudge (rating 4 in-band on a
profile whose zones were derived from 250 sec/km) moves the stored
threshold to 245 but leaves all zone strings as derived from 250; the
stored zone-4 bounds are not the fixed multipliers of the new stored
threshold (those would be `[3:58, ...]`, since round(245*0.97) = 238). -/
theorem C4_nudge_leaves_zones_stale :
    ((adjustZonesFromRPE athleteZones250 4 (some act250)).2).lt2_pace = some ⟨4, 5⟩ ∧
    ((adjustZonesFromRPE athleteZones250 4 (some act250)).2).zone4_pace =
      some (⟨4, 3⟩, ⟨4, 30⟩) ∧
    (fmt (zoneBoundsNum (parsePaceStr (⟨4, 5⟩ : PaceStr))).z4lo,
      fmt (zoneBoundsNum (parsePaceStr (⟨4, 5⟩ : PaceStr))).z4hi) ≠ (⟨4, 3⟩, ⟨4, 30⟩) := by
  refine ⟨?_, ?_, ?_⟩ <;> with_unfolding_all decide

/-- Claim C4 (amended): after every successful full re-detection the
stored zone strings equal the fixed multipliers of the stored threshold
pace; an accepted recalibration nudge, however, rewrites only `lt2_pace`
and `critical_speed` and leaves every stored zone string unchanged, so
zones are stale relative to the stored threshold until the next full
re-detection. -/
theorem C4_zones_fresh_only_after_redetect (athlete : Athlete)
    (activities : List RawActivity) (rpe : ℤ) (act : Option Activity) :
    (∀ z, calculateZonesFromStravaHrmax athlete activities = some z →
      ∃ cs, 0 ≤ cs ∧
        (runZoneCalculation athlete activities).lt2_pace = some (fmt cs) ∧
        (runZoneCalculation athlete activities).critical_speed = some (fmt cs) ∧
        (runZoneCalculation athlete activities).zone1_pace =
          some (fmt (zoneBoundsNum cs).z1) ∧
        (runZoneCalculation athlete activities).zone2_pace =
          some (fmt (zoneBoundsNum cs).z2lo, fmt (zoneBoundsNum cs).z2hi) ∧
        (runZoneCalculation athlete activities).zone3_pace =
          some (fmt (zoneBoundsNum cs).z3lo, fmt (zoneBoundsNum cs).z3hi) ∧
        (runZoneCalculation athlete activities).zone4_pace =
          some (fmt (zoneBoundsNum cs).z4lo, fmt (zoneBoundsNum cs).z4hi) ∧
        (runZoneCalculation athlete activities).zone5_pace =
          some (fmt (zoneBoundsNum cs).z5)) ∧
    (((adjustZonesFromRPE athlete rpe act).2).zone1_pace = athlete.zone1_pace ∧
      ((adjustZonesFromRPE athlete rpe act).2).zone2_pace = athlete.zone2_pace ∧
      ((adjustZonesFromRPE athlete rpe act).2).zone3_pace = athlete.zone3_pace ∧
      ((adjustZonesFromRPE athlete rpe act).2).zone4_pace = athlete.zone4_pace ∧
      ((adjustZonesFromRPE athlete rpe act).2).zone5_pace = athlete.zone5_pace) := by
  constructor
  · intro z hz
    obtain ⟨L1, L2, hL2, hle, hlt1, hlt2, hcs, hz1, hz2, hz3, hz4, hz5⟩ :=
      calculateZonesFromStravaHrmax_shape hz
    refine ⟨L2, hL2, ?_, ?_, ?_, ?_, ?_, ?_, ?_⟩ <;>
      rw [runZoneCalculation_of_some hz] <;>
      simp [hlt2, hcs, hz1, hz2, hz3, hz4, hz5]
  · have hf := adjustZonesFromRPE_frame athlete rpe act
    exact ⟨hf.2.2.2.1, hf.2.2.2.2.1, hf.2.2.2.2.2.1, hf.2.2.2.2.2.2.1,
      hf.2.2.2.2.2.2.2.1⟩

/-- Witness for C4: re-detection on the scenario derives zones from the new threshold. -/
theorem C4_zones_fresh_only_after_redetect_witness :
    ∃ cs, 0 ≤ cs ∧
      (runZoneCalculation athleteFresh scenario6).lt2_pace = some (fmt cs) ∧
      (runZoneCalculation athleteFresh scenario6).critical_speed = some (fmt cs) ∧
      (runZoneCalculation athleteFresh scenario6).zone1_pace =
        some (fmt (zoneBoundsNum cs).z1) ∧
      (runZoneCalculation athleteFresh scenario6).zone2_pace =
        some (fmt (zoneBoundsNum cs).z2lo, fmt (zoneBoundsNum cs).z2hi) ∧
      (runZoneCalculation athleteFresh scenario6).zone3_pace =
        some (fmt (zoneBoundsNum cs).z3lo, fmt (zoneBoundsNum cs).z3hi) ∧
      (runZoneCalculation athleteFresh scenario6).zone4_pace =
        some (fmt (zoneBoundsNum cs).z4lo, fmt (zoneBoundsNum cs).z4hi) ∧
      (runZoneCalculation athleteFresh scenario6).zone5_pace =
        some (fmt (zoneBoundsNum cs).z5) :=
  (C4_zones_fresh_only_after_redetect athleteFresh scenario6 0 none).1
    zonesScenario6 calcHrmax_scenario6

/-- Claim C5, counterexample: a rating 10 on a session 40% slower than
the stored 250 sec/km threshold (outside the 10% band) still mutates the
profile — the callback unconditionally increments `rpe_count` — so the
profile is not byte-for-byte unchanged. -/
theorem C5_out_of_band_still_mutates :
    handleRpeCallback athlete250 (some act350) 10 [] ≠ athlete250 ∧
    (handleRpeCallback athlete250 (some act350) 10 []).rpe_count = some 1 := by
  constructor <;> with_unfolding_all decide

/-- Claim C5 (amended): a rating on a session outside the 10% band is a
no-op for the nudge itself — `adjustZonesFromRPE` returns the profile
unchanged — but the callback still increments `rpe_count`; when the new
count does not trigger the every-3rd-rating re-detection, every other
field is unchanged. -/
theorem C5_out_of_band_only_counter (athlete : Athlete) (act : Activity) (rpe : ℤ)
    (activities : List RawActivity) (p ap : PaceStr)
    (hp : athlete.lt2_pace = some p) (hap : act.avg_pace = some ap)
    (hout : ¬ isThresholdSession (parsePaceStr ap) (parsePaceStr p)) :
    adjustZonesFromRPE athlete rpe (some act) = (none, athlete) ∧
    (¬ (3 ≤ jsOrInt athlete.rpe_count 0 + 1 ∧
        (jsOrInt athlete.rpe_count 0 + 1) % 3 = 0) →
      handleRpeCallback athlete (some act) rpe activities =
        { athlete with rpe_count := some (jsOrInt athlete.rpe_count 0 + 1) }) := by
  have hadj := @adjustZonesFromRPE_notband athlete act rpe p ap hp hap hout
  refine ⟨hadj, ?_⟩
  intro htr
  rw [handleRpeCallback_no_recalc htr, hadj]

/-- Witness for C5: rating 10 at 350 sec/km against a 250 sec/km threshold. -/
theorem C5_out_of_band_only_counter_witness :
    adjustZonesFromRPE athlete250 10 (some act350) = (none, athlete250) ∧
    (¬ (3 ≤ jsOrInt athlete250.rpe_count 0 + 1 ∧
        (jsOrInt athlete250.rpe_count 0 + 1) % 3 = 0) →
      handleRpeCallback athlete250 (some act350) 10 [] =
        { athlete250 with rpe_count := some (jsOrInt athlete250.rpe_count 0 + 1) }) :=
  C5_out_of_band_only_counter athlete250 act350 10 [] ⟨4, 10⟩ ⟨5, 50⟩ rfl rfl
    (by with_unfolding_all decide)

/-- Claim C6: with fewer than 5 qualifying sessions after filtering, the
HRmax-anchored detector returns `null` (insufficient data) and the
orchestrator leaves the stored profile untouched — threshold, zones and
counters included. -/
theorem C6_insufficient_data_no_mutation (athlete : Athlete)
    (activities : List RawActivity)
    (h : (activities.filter qualityRunHrmax).length < 5) :
    calculateZonesFromStravaHrmax athlete activities = none ∧
    runZoneCalculation athlete activities = athlete := by
  have h1 : calculateZonesFromStravaHrmax athlete activities = none := by
    simp only [calculateZonesFromStravaHrmax]
    rw [if_pos h]
  exact ⟨h1, runZoneCalculation_of_none h1⟩

/-- Witness for C6: an empty history filters to 0 qualifying sessions. -/
theorem C6_insufficient_data_no_mutation_witness :
    calculateZonesFromStravaHrmax athleteFresh [] = none ∧
    runZoneCalculation athleteFresh [] = athleteFresh :=
  C6_insufficient_data_no_mutation athleteFresh [] (by decide)

/-- Claim C7, counterexample: on the spec §8 scenario (6 sessions, heart
rates [130,135,140,150,165,180], paces [360,350,340,320,300,280], 1200 s
each) the slope-based detector returns `null` — insufficient data — so
the claim that the call does not return insufficient data is false. -/
theorem C7_scenario_insufficient :
    calculateZonesFromStravaSlope scenario6 = none := by
  with_unfolding_all decide

/-- Claim C7 (amended): the filter accepts all 6 sessions and the trim
drops one sample from each end leaving 4 data points, but the slope-based
detector then stops with insufficient data — it requires at least 5
post-trim points, so the slope method is never attempted on 4 points.
(The HRmax-anchored snapshot accepts 4 points and, on the same history,
interpolation produces the valid non-inverted pair LT2 = 301 ≤ LT1 = 332.) -/
theorem C7_scenario_pipeline :
    (scenario6.filter qualityRunSlope).length = 6 ∧
    (trimOutliers (sortOn (fun p => p.hr)
      (mkDataPoints (scenario6.filter qualityRunSlope)))).length = 4 ∧
    calculateZonesFromStravaSlope scenario6 = none ∧
    (calculateZonesFromStravaHrmax athleteFresh scenario6).map
      (fun z => (parsePaceStr z.lt2, parsePaceStr z.lt1)) = some (301, 332) ∧
    (301 : ℤ) ≤ 332 := by
  refine ⟨?_, ?_, ?_, ?_, ?_⟩ <;> with_unfolding_all decide

/-- Claim C8, counterexample: a successful full re-detection (here on a
profile with `rpe_count = 5` and the 6-session scenario history)
overwrites the threshold but leaves `rpe_count` at 5 — the counter is
never reset to 0. -/
theorem C8_redetect_keeps_counter :
    (calculateZonesFromStravaHrmax athleteCount5 scenario6).isSome = true ∧
    (runZoneCalculation athleteCount5 scenario6).lt2_pace = some ⟨5, 1⟩ ∧
    (runZoneCalculation athleteCount5 scenario6).rpe_count = some 5 ∧
    (some 5 : Option ℤ) ≠ some 0 := by
  refine ⟨?_, ?_, ?_, ?_⟩ <;> with_unfolding_all decide

/-- Claim C8 (amended): every successful full re-detection overwrites the
profile's threshold and zone fields with the freshly computed estimate,
but `rpe_count` is left unchanged — never reset to 0; re-detection is
instead triggered whenever the running count reaches a positive multiple
of 3. -/
theorem C8_overwrite_without_reset (athlete : Athlete) (activities : List RawActivity) :
    (runZoneCalculation athlete activities).rpe_count = athlete.rpe_count ∧
    ∀ z, calculateZonesFromStravaHrmax athlete activities = some z →
      (runZoneCalculation athlete activities).lt2_pace = some z.lt2 ∧
      (runZoneCalculation athlete activities).lt1_pace = some z.lt1 ∧
      (runZoneCalculation athlete activities).critical_speed = some z.criticalSpeed ∧
      (runZoneCalculation athlete activities).zone1_pace = some z.z1 ∧
      (runZoneCalculation athlete activities).zone2_pace = some z.z2 ∧
      (runZoneCalculation athlete activities).zone3_pace = some z.z3 ∧
      (runZoneCalculation athlete activities).zone4_pace = some z.z4 ∧
      (runZoneCalculation athlete activities).zone5_pace = some z.z5 := by
  refine ⟨runZoneCalculation_rpe_count athlete activities, ?_⟩
  intro z hz
  rw [runZoneCalculation_of_some hz]
  exact ⟨rfl, rfl, rfl, rfl, rfl, rfl, rfl, rfl⟩

/-- Witness for C8: overwrite and counter preservation on the scenario history. -/
theorem C8_overwrite_without_reset_witness :
    (runZoneCalculation athleteFresh scenario6).rpe_count = athleteFresh.rpe_count ∧
    ((runZoneCalculation athleteFresh scenario6).lt2_pace = some zonesScenario6.lt2 ∧
      (runZoneCalculation athleteFresh scenario6).lt1_pace = some zonesScenario6.lt1 ∧
      (runZoneCalculation athleteFresh scenario6).critical_speed =
        some zonesScenario6.criticalSpeed ∧
      (runZoneCalculation athleteFresh scenario6).zone1_pace = some zonesScenario6.z1 ∧
      (runZoneCalculation athleteFresh scenario6).zone2_pace = some zonesScenario6.z2 ∧
      (runZoneCalculation athleteFresh scenario6).zone3_pace = some zonesScenario6.z3 ∧
      (runZoneCalculation athleteFresh scenario6).zone4_pace = some zonesScenario6.z4 ∧
      (runZoneCalculation athleteFresh scenario6).zone5_pace = some zonesScenario6.z5) :=
  ⟨(C8_overwrite_without_reset athleteFresh scenario6).1,
    (C8_overwrite_without_reset athleteFresh scenario6).2 zonesScenario6 calcHrmax_scenario6⟩

/-- Claim C9: on every nonempty sample list the interpolation returns a
value; the `below` sample is a member with the highest heart rate ≤
target and the `above` sample a member with the lowest heart rate ≥
target; with only one side present the result is that side's pace (no
extrapolation), and with both sides present the result lies within the
closed interval spanned by the bracketing samples' paces. -/
theorem C9_interpolation (l : List DataPoint) (t : ℤ) (hl : l ≠ []) :
    (∃ r, interpolatePaceAtHR l t = some r) ∧
    (∀ b, scanBelow t l = some b →
      b ∈ l ∧ b.hr ≤ t ∧ ∀ p ∈ l, p.hr ≤ t → p.hr ≤ b.hr) ∧
    (∀ a, scanAbove t l = some a →
      a ∈ l ∧ t ≤ a.hr ∧ ∀ p ∈ l, t ≤ p.hr → a.hr ≤ p.hr) ∧
    (∀ b, scanBelow t l = some b → scanAbove t l = none →
      interpolatePaceAtHR l t = some b.paceSecPerKm) ∧
    (∀ a, scanAbove t l = some a → scanBelow t l = none →
      interpolatePaceAtHR l t = some a.paceSecPerKm) ∧
    (∀ b a r, scanBelow t l = some b → scanAbove t l = some a →
      interpolatePaceAtHR l t = some r →
      min b.paceSecPerKm a.paceSecPerKm ≤ r ∧ r ≤ max b.paceSecPerKm a.paceSecPerKm) := by
  refine ⟨interpolatePaceAtHR_isSome hl, ?_, ?_, ?_, ?_, ?_⟩
  · intro b hb
    exact ⟨scanBelow_mem hb, scanBelow_le hb, scanBelow_max hb⟩
  · intro a ha
    exact ⟨scanAbove_mem ha, scanAbove_ge ha, scanAbove_min ha⟩
  · intro b hb ha
    unfold interpolatePaceAtHR
    rw [hb, ha]
  · intro a ha hb
    unfold interpolatePaceAtHR
    rw [hb, ha]
  · intro b a r hb ha hr
    unfold interpolatePaceAtHR at hr
    rw [hb, ha] at hr
    replace hr : (if b = a then some b.paceSecPerKm
        else some (jsRound ((b.paceSecPerKm : ℚ) +
          ((t : ℚ) - b.hr) / ((a.hr : ℚ) - b.hr) *
            ((a.paceSecPerKm : ℚ) - b.paceSecPerKm)))) = some r := hr
    by_cases hba : b = a
    · subst hba
      rw [if_pos rfl] at hr
      obtain rfl : b.paceSecPerKm = r := Option.some.inj hr
      simp
    · rw [if_neg hba] at hr
      obtain rfl := Option.some.inj hr
      exact interp_value_bounds (scanBelow_hr_lt_scanAbove hb ha hba)
        (scanBelow_le hb) (scanAbove_ge ha)

/-- Witness for C9: interpolation over a concrete two-point sample list. -/
theorem C9_interpolation_witness :
    (∃ r, interpolatePaceAtHR dpPair 150 = some r) ∧
    (∀ b, scanBelow 150 dpPair = some b →
      b ∈ dpPair ∧ b.hr ≤ 150 ∧ ∀ p ∈ dpPair, p.hr ≤ 150 → p.hr ≤ b.hr) ∧
    (∀ a, scanAbove 150 dpPair = some a →
      a ∈ dpPair ∧ 150 ≤ a.hr ∧ ∀ p ∈ dpPair, 150 ≤ p.hr → a.hr ≤ p.hr) ∧
    (∀ b, scanBelow 150 dpPair = some b → scanAbove 150 dpPair = none →
      interpolatePaceAtHR dpPair 150 = some b.paceSecPerKm) ∧
    (∀ a, scanAbove 150 dpPair = some a → scanBelow 150 dpPair = none →
      interpolatePaceAtHR dpPair 150 = some a.paceSecPerKm) ∧
    (∀ b a r, scanBelow 150 dpPair = some b → scanAbove 150 dpPair = some a →
      interpolatePaceAtHR dpPair 150 = some r →
      min b.paceSecPerKm a.paceSecPerKm ≤ r ∧ r ≤ max b.paceSecPerKm a.paceSecPerKm) :=
  C9_interpolation dpPair 150 (by decide)

/-- Claim C10: for a positive pace and a critical-speed string parsing to
a positive number of seconds, `classifyZone` returns exactly the zone
prescribed by the ratio bands — ratio ≥ 1.35 is Z1, [1.20, 1.35) is Z2,
[1.08, 1.20) is Z3, [0.97, 1.08) is Z4, and below 0.97 is Z5, each
boundary ratio falling in the slower zone. -/
theorem C10_classifyZone_partition (pace : ℤ) (cs : PaceStr)
    (hpace : 0 < pace) (hcs : 0 < parsePaceStr cs) :
    ((135/100 : ℚ) ≤ (pace : ℚ) / (parsePaceStr cs : ℚ) →
      classifyZone (some pace) (some cs) = ZoneLabel.z1Recovery) ∧
    ((12/10 : ℚ) ≤ (pace : ℚ) / (parsePaceStr cs : ℚ) ∧
        (pace : ℚ) / (parsePaceStr cs : ℚ) < 135/100 →
      classifyZone (some pace) (some cs) = ZoneLabel.z2AerobicBase) ∧
    ((108/100 : ℚ) ≤ (pace : ℚ) / (parsePaceStr cs : ℚ) ∧
        (pace : ℚ) / (parsePaceStr cs : ℚ) < 12/10 →
      classifyZone (some pace) (some cs) = ZoneLabel.z3Tempo) ∧
    ((97/100 : ℚ) ≤ (pace : ℚ) / (parsePaceStr cs : ℚ) ∧
        (pace : ℚ) / (parsePaceStr cs : ℚ) < 108/100 →
      classifyZone (some pace) (some cs) = ZoneLabel.z4Threshold) ∧
    ((pace : ℚ) / (parsePaceStr cs : ℚ) < 97/100 →
      classifyZone (some pace) (some cs) = ZoneLabel.z5VO2max) := by
  simp only [classifyZone]
  rw [if_neg (by omega : ¬ pace = 0)]
  refine ⟨?_, ?_, ?_, ?_, ?_⟩
  · intro h
    rw [if_pos h]
  · rintro ⟨h1, h2⟩
    rw [if_neg (not_le.mpr h2), if_pos h1]
  · rintro ⟨h1, h2⟩
    rw [if_neg (not_le.mpr (by linarith)), if_neg (not_le.mpr h2), if_pos h1]
  · rintro ⟨h1, h2⟩
    rw [if_neg (not_le.mpr (by linarith)), if_neg (not_le.mpr (by linarith)),
      if_neg (not_le.mpr h2), if_pos h1]
  · intro h
    rw [if_neg (not_le.mpr (by linarith)), if_neg (not_le.mpr (by linarith)),
      if_neg (not_le.mpr (by linarith)), if_neg (not_le.mpr h)]

/-- Witness for C10: pace 300 against critical speed 5:00 is a ratio of 1, zone 4. -/
theorem C10_classifyZone_partition_witness :
    classifyZone (some 300) (some ⟨5, 0⟩) = ZoneLabel.z4Threshold :=
  (C10_classifyZone_partition 300 ⟨5, 0⟩ (by decide) (by decide)).2.2.2.1
    ⟨by with_unfolding_all decide, by with_unfolding_all decide⟩

end HybridCoach
